import Mathlib

/-!
Verification of `dev/abstract_packer_builder.py` (class `AbstractPackerBuilder`).

Python strings are modelled as lists of characters (`PyStr`).  The pure
argument-processing helpers (`remove_raw_arg`, `__add_args_to_map`) are
translated directly.  The stateful prepare/run/cleanup lifecycle is modelled
as explicit state passing over `BuilderState`; the outcomes of the external
collaborators (`tempfile.mkstemp`, the storage-copy subprocess, the packer
subprocess) are supplied by an `Env` record, and every externally visible
action is recorded in an event trace so that ordering properties can be
stated.  `os.remove` is modelled on a file-system set: it succeeds when the
file exists and raises otherwise (the raise is swallowed by the bare
`except:` in `__cleanup`, exactly as in the source).
-/

namespace Packer

/-- A Python string, as a list of characters. -/
abbrev PyStr := List Char

/-- Convenience injection of Lean string literals into `PyStr`. -/
def strL (s : String) : PyStr := s.toList

/-- Python `s.startswith(p)`. -/
def startswith (s p : PyStr) : Bool := List.isPrefixOf p s

/-- Python `s.find('=')`: index of the first `'='`, or `-1` when absent. -/
def findEq : PyStr → Int
  | [] => -1
  | c :: rest =>
    if c = '=' then 0
    else if findEq rest < 0 then -1 else findEq rest + 1

/-- The `__var_map` dictionary: keys in insertion order, keys unique. -/
abbrev VarMap := List (PyStr × PyStr)

deriving instance DecidableEq for Except

/-- Python `d[k] = v`: overwrite the entry in place, or append a new one. -/
def dictSet : VarMap → PyStr → PyStr → VarMap
  | [], k, v => [(k, v)]
  | (k', v') :: rest, k, v =>
    if k' = k then (k, v) :: rest else (k', v') :: dictSet rest k v

/-- Python `d.get(k)`. -/
def dictGet : VarMap → PyStr → Option PyStr
  | [], _ => none
  | (k', v') :: rest, k => if k' = k then some v' else dictGet rest k

/-- The keys of a `VarMap`, in order. -/
def keys (m : VarMap) : List PyStr := m.map Prod.fst

/-- The `while remaining:` loop of `remove_raw_arg`, with the `result`
accumulator.  A token starting with `flag` is dropped, together with the
following token when that one does not start with `"--"`.  The one- and
two-token cases are split so that the recursion is structural. -/
def removeLoop (flag : PyStr) : List PyStr → List PyStr → List PyStr
  | acc, [] => acc.reverse
  | acc, [arg] =>
    if startswith arg flag = false then (arg :: acc).reverse else acc.reverse
  | acc, arg :: next :: rest =>
    if startswith arg flag = false then removeLoop flag (arg :: acc) (next :: rest)
    else
      if startswith next (strL "--") = false then removeLoop flag acc rest
      else removeLoop flag acc (next :: rest)

/-- `AbstractPackerBuilder.remove_raw_arg`, as a pure function on the raw
argument list. -/
def remove_raw_arg (name : PyStr) (raw_args : List PyStr) : List PyStr :=
  removeLoop (strL "--" ++ name) [] raw_args

/-- Modelled from the amended specification wording: remove every token
beginning with `flag`, together with its immediately following token when
that token does not itself begin with `"--"`; keep everything else.  Used
as the direct-recursion reference for `remove_raw_arg`. -/
def removeSpec (flag : PyStr) : List PyStr → List PyStr
  | [] => []
  | [arg] => if startswith arg flag = false then [arg] else []
  | arg :: next :: rest =>
    if startswith arg flag = false then arg :: removeSpec flag (next :: rest)
    else
      if startswith next (strL "--") = false then removeSpec flag rest
      else removeSpec flag (next :: rest)

/-- `AbstractPackerBuilder.__add_args_to_map`, as a function from the
current variable map and the remaining raw args to either a `ValueError`
message or the updated map. -/
def add_args_to_map : VarMap → List PyStr → Except PyStr VarMap
  | var_map, [] => Except.ok var_map
  | var_map, [arg] =>
    if startswith arg (strL "--") = false then
      Except.error (strL "Unexpected argument \"" ++ arg ++ strL "\"")
    else
      let a := arg.drop 2
      let eq := findEq a
      if 0 < eq then
        Except.ok (dictSet var_map (a.take eq.toNat) (a.drop (eq.toNat + 1)))
      else
        Except.ok (dictSet var_map a (strL ""))
  | var_map, arg :: next :: rest =>
    if startswith arg (strL "--") = false then
      Except.error (strL "Unexpected argument \"" ++ arg ++ strL "\"")
    else
      let a := arg.drop 2
      let eq := findEq a
      if 0 < eq then
        add_args_to_map (dictSet var_map (a.take eq.toNat) (a.drop (eq.toNat + 1))) (next :: rest)
      else
        if startswith next (strL "--") = false then
          add_args_to_map (dictSet (dictSet var_map a (strL "")) a next) rest
        else
          add_args_to_map (dictSet var_map a (strL "")) (next :: rest)

/-- One `-var "name=value"` command-line argument for packer
(`__prepare`, lines 162-164). -/
def fmt_packer_var (p : PyStr × PyStr) : PyStr :=
  strL "-var \"" ++ p.1 ++ strL "=" ++ p.2 ++ strL "\""

/-- The parsed command-line options; only `release_path` is declared. -/
structure Options where
  release_path : PyStr
deriving DecidableEq

/-- Outcomes of the external collaborators for one run. -/
structure Env where
  /-- The fresh path returned by `tempfile.mkstemp()`. -/
  tempPath : PyStr
  /-- Whether the `check_run_quick` copy command succeeds. -/
  copyOk : Bool
  /-- `some stdout` when `check_run_and_monitor` (packer) succeeds,
  `none` when it raises. -/
  packerResult : Option PyStr
  /-- The `PACKER_TEMPLATE` class attribute. -/
  packerTemplate : PyStr
deriving DecidableEq

/-- Externally visible actions, in order. -/
inductive Event where
  | mkstempEv (path : PyStr)
  | runCmd (cmd : PyStr)
  | packerRun (cmd : PyStr)
  | hookPrepare
  | hookCleanup
  | cleanupEnter
  | removeAttempt (path : PyStr)
deriving DecidableEq

/-- The Python exceptions that the modelled code can raise. -/
inductive PyError where
  | valueError (msg : PyStr)
  | processError (cmd : PyStr)
deriving DecidableEq

/-- The mutable state of one `AbstractPackerBuilder` instance, plus the
file system and the event trace. -/
structure BuilderState where
  fs : List PyStr
  var_map : VarMap
  raw_args : List PyStr
  packer_vars : List PyStr
  installer_path : Option PyStr
  in_subprocess : Bool
  output : Option PyStr
  events : List Event
deriving DecidableEq

/-- The command string built by `_do_prepare_installer` (lines 142-146). -/
def copyCmd (program release path : PyStr) : PyStr :=
  program ++ strL " cp " ++ release ++ strL "/install_spinnaker.sh " ++ path
    ++ strL " && chmod +x " ++ path

/-- The `ValueError` message for an unsupported `release_path` scheme. -/
def dispatchErrMsg (release : PyStr) : PyStr :=
  strL "--release_path must be either GCS or S3, not \"" ++ release ++ strL "\"."

/-- The program chosen by the scheme dispatch of `_do_prepare_installer`:
`gsutil` for `gs://`, `aws s3` for `s3://`, none otherwise. -/
def progOf (release : PyStr) : Option PyStr :=
  if startswith release (strL "gs://") then some (strL "gsutil")
  else if startswith release (strL "s3://") then some (strL "aws s3")
  else none

/-- `AbstractPackerBuilder._do_prepare_installer` (lines 127-147). -/
def do_prepare_installer (opts : Options) (env : Env) (installer_path : PyStr)
    (st : BuilderState) : Option PyError × BuilderState :=
  match progOf opts.release_path with
  | none => (some (PyError.valueError (dispatchErrMsg opts.release_path)), st)
  | some program =>
    let cmd := copyCmd program opts.release_path installer_path
    let st1 := { st with in_subprocess := true, events := st.events ++ [Event.runCmd cmd] }
    if env.copyOk then (none, { st1 with in_subprocess := false })
    else (some (PyError.processError cmd), st1)

/-- The reserved variable key registered by `__prepare`. -/
def ipKey : PyStr := strL "installer_path"

/-- `AbstractPackerBuilder.__prepare` (lines 149-164): make the temp file,
register it in the variable map, fetch the installer, run the prepare hook,
merge the raw args and build the packer variable arguments. -/
def prepare (opts : Options) (env : Env) (st : BuilderState) :
    Option PyError × BuilderState :=
  let path := env.tempPath
  let st1 : BuilderState :=
    { st with fs := path :: st.fs, installer_path := some path,
              var_map := dictSet st.var_map ipKey path,
              events := st.events ++ [Event.mkstempEv path] }
  match do_prepare_installer opts env path st1 with
  | (some e, st2) => (some e, st2)
  | (none, st2) =>
    let st3 := { st2 with events := st2.events ++ [Event.hookPrepare] }
    match add_args_to_map st3.var_map st3.raw_args with
    | Except.error msg => (some (PyError.valueError msg), st3)
    | Except.ok m =>
      (none, { st3 with var_map := m, packer_vars := m.map fmt_packer_var })

/-- `AbstractPackerBuilder.__cleanup` (lines 166-176): when an installer
path is recorded (and truthy), try to delete it, swallowing any error,
then call the `_do_cleanup` hook. -/
def cleanup (st : BuilderState) : BuilderState :=
  let st1 := { st with events := st.events ++ [Event.cleanupEnter] }
  let st2 :=
    match st1.installer_path with
    | some p =>
      if p.isEmpty then st1
      else { st1 with events := st1.events ++ [Event.removeAttempt p],
                      fs := st1.fs.erase p }
    | none => st1
  { st2 with events := st2.events ++ [Event.hookCleanup] }

/-- The packer command string of `_do_run_packer` (lines 105-110). -/
def pkCmd (vars : List PyStr) (template : PyStr) : PyStr :=
  strL "packer build " ++ List.intercalate (strL " ") vars ++ strL " " ++ template

/-- `AbstractPackerBuilder.create_image` (lines 112-125).  Note that
`__prepare()` is called before the `try:` block, so `__cleanup` runs (via
`finally:`) only around the packer invocation. -/
def create_image (opts : Options) (env : Env) (st : BuilderState) :
    Option PyError × BuilderState :=
  match prepare opts env st with
  | (some e, st1) => (some e, st1)
  | (none, st1) =>
    let st2 := { st1 with in_subprocess := true }
    let cmd := pkCmd st2.packer_vars env.packerTemplate
    let st3 := { st2 with events := st2.events ++ [Event.packerRun cmd] }
    match env.packerResult with
    | none => (some (PyError.processError cmd), cleanup st3)
    | some out =>
      let st4 := { st3 with in_subprocess := false, output := some out }
      (none, cleanup st4)

/-- The state built by `__init__` (lines 57-66): empty map, raw args from
the command line, no installer path, flag cleared. -/
def initState (raw_args : List PyStr) (fs0 : List PyStr) : BuilderState :=
  { fs := fs0, var_map := [], raw_args := raw_args, packer_vars := [],
    installer_path := none, in_subprocess := false, output := none, events := [] }

/-- The observable outcome of `AbstractPackerBuilder.main` (lines 226-235). -/
inductive MainResult where
  | success (st : BuilderState)
  | silentExit (code : Int)
  | tracedError (e : PyError)
deriving DecidableEq

/-- The `try/except` of `main`: on an exception, exit silently with `-1`
when the `__in_subprocess` flag is set, otherwise re-raise (full trace). -/
def mainRun (opts : Options) (env : Env) (raw_args fs0 : List PyStr) : MainResult :=
  match create_image opts env (initState raw_args fs0) with
  | (none, st) => MainResult.success st
  | (some e, st) => if st.in_subprocess then MainResult.silentExit (-1) else MainResult.tracedError e

/-- Number of occurrences of an event in a trace. -/
def countEv (e : Event) : List Event → Nat
  | [] => 0
  | x :: l => (if x = e then 1 else 0) + countEv e l

/-- `a` occurs strictly before `b` in the list. -/
def evBefore (a b : Event) (l : List Event) : Prop :=
  ∃ i : Fin l.length, ∃ j : Fin l.length, i.val < j.val ∧ l.get i = a ∧ l.get j = b

/-- Number of occurrences of a string in a list of strings. -/
def countStr (k : PyStr) : List PyStr → Nat
  | [] => 0
  | x :: l => (if x = k then 1 else 0) + countStr k l

/-- Index of the first occurrence of an event in a trace. -/
def firstIdx (e : Event) : List Event → Option Nat
  | [] => none
  | x :: l => if x = e then some 0 else (firstIdx e l).map (· + 1)

/-- Whether the first occurrence of `a` is strictly before the first
occurrence of `b` (both must occur). -/
def evBeforeB (a b : Event) (l : List Event) : Bool :=
  match firstIdx a l, firstIdx b l with
  | some i, some j => decide (i < j)
  | _, _ => false

/- Concrete sample inputs used by witnesses and counterexamples. -/

/-- Sample options with a GCS release path. -/
def optsG : Options := { release_path := strL "gs://x/y" }

/-- Sample options with an S3 release path. -/
def optsS3 : Options := { release_path := strL "s3://x/y" }

/-- Sample options with an unsupported release path scheme. -/
def optsFtp : Options := { release_path := strL "ftp://x/y" }

/-- Sample environment in which every external step succeeds. -/
def envG : Env :=
  { tempPath := strL "/tmp/inst", copyOk := true,
    packerResult := some (strL "packer-out"), packerTemplate := strL "template.json" }

/-- Sample environment in which the storage copy command fails. -/
def envCopyFail : Env := { envG with copyOk := false }

/-- Sample environment in which the packer invocation fails. -/
def envPackerFail : Env := { envG with packerResult := none }

/-- Sample builder state with a recorded installer path. -/
def stC6 : BuilderState :=
  { fs := [strL "/tmp/inst"], var_map := [], raw_args := [], packer_vars := [],
    installer_path := some (strL "/tmp/inst"), in_subprocess := false,
    output := none, events := [] }

/-! ## String and list helper lemmas -/

theorem startswith_append (p t : PyStr) : startswith (p ++ t) p = true := by
  simp [startswith, List.prefix_append]

theorem drop_two (x : PyStr) : (strL "--" ++ x).drop 2 = x := rfl

theorem findEq_of_not_mem {a : PyStr} (h : '=' ∉ a) : findEq a = -1 := by
  induction a with
  | nil => rfl
  | cons c cs ih =>
    simp only [List.mem_cons, not_or] at h
    obtain ⟨h1, h2⟩ := h
    have hc : ¬ (c = '=') := fun hc => h1 hc.symm
    simp [findEq, hc, ih h2]

theorem findEq_append (k v : PyStr) (h : '=' ∉ k) :
    findEq (k ++ '=' :: v) = (k.length : Int) := by
  induction k with
  | nil => simp [findEq]
  | cons c cs ih =>
    simp only [List.mem_cons, not_or] at h
    obtain ⟨h1, h2⟩ := h
    have hc : ¬ (c = '=') := fun hc => h1 hc.symm
    have hnn : ¬ ((cs.length : Int) < 0) := by omega
    simp [findEq, hc, ih h2, hnn]

/-! ## Dictionary lemmas -/

theorem dictSet_dictSet (m : VarMap) (k v w : PyStr) :
    dictSet (dictSet m k v) k w = dictSet m k w := by
  induction m with
  | nil => simp [dictSet]
  | cons p rest ih =>
    obtain ⟨k1, v1⟩ := p
    by_cases hk : k1 = k
    · simp [dictSet, hk]
    · simp [dictSet, hk, ih]

theorem keys_dictSet (m : VarMap) (k v : PyStr) :
    keys (dictSet m k v) = if k ∈ keys m then keys m else keys m ++ [k] := by
  induction m with
  | nil => simp [dictSet, keys]
  | cons p rest ih =>
    obtain ⟨k1, v1⟩ := p
    by_cases hk : k1 = k
    · subst hk
      simp [dictSet, keys]
    · have hne : ¬ (k = k1) := fun h => hk h.symm
      simp only [dictSet, hk, if_false, keys, List.map_cons] at ih ⊢
      rw [ih]
      by_cases hmem : k ∈ List.map Prod.fst rest
      · simp [hmem, hne]
      · simp [hmem, hne]

theorem nodup_keys_dictSet (m : VarMap) (k v : PyStr) (h : (keys m).Nodup) :
    (keys (dictSet m k v)).Nodup := by
  rw [keys_dictSet]
  by_cases hmem : k ∈ keys m
  · simpa [hmem]
  · simp [hmem, List.nodup_append, h]

/-! ## Step lemmas for the raw-argument merge -/

theorem add_args_badarg (m : VarMap) (arg : PyStr) (rest : List PyStr)
    (h : startswith arg (strL "--") = false) :
    add_args_to_map m (arg :: rest) =
      Except.error (strL "Unexpected argument \"" ++ arg ++ strL "\"") := by
  cases rest <;> simp [add_args_to_map, h]

theorem add_args_cons_pair (m : VarMap) (name value : PyStr) (rest : List PyStr)
    (h1 : name ≠ []) (h2 : '=' ∉ name) :
    add_args_to_map m ((strL "--" ++ name ++ '=' :: value) :: rest) =
      add_args_to_map (dictSet m name value) rest := by
  have hassoc : strL "--" ++ name ++ '=' :: value = strL "--" ++ (name ++ '=' :: value) := by
    simp [List.append_assoc]
  have hsw : startswith (strL "--" ++ (name ++ '=' :: value)) (strL "--") = true :=
    startswith_append _ _
  have hfind : findEq (name ++ '=' :: value) = (name.length : Int) := findEq_append _ _ h2
  have hpos : 0 < (name.length : Int) := by
    have := List.length_pos.mpr h1
    omega
  have htake : (name ++ '=' :: value).take name.length = name := List.take_left _ _
  have hdropv : (name ++ '=' :: value).drop (name.length + 1) = value := by
    have heq : name ++ '=' :: value = (name ++ ['=']) ++ value := by simp
    have hlen : (name ++ ['=']).length = name.length + 1 := by simp
    rw [heq, List.drop_left' hlen]
  rw [hassoc]
  cases rest with
  | nil =>
    simp [add_args_to_map, hsw, drop_two, hfind, hpos, htake, hdropv]
  | cons b bs =>
    simp [add_args_to_map, hsw, drop_two, hfind, hpos, htake, hdropv]

theorem add_args_cons_bare_nil (m : VarMap) (a : PyStr) (h : ¬ 0 < findEq a) :
    add_args_to_map m [strL "--" ++ a] = Except.ok (dictSet m a (strL "")) := by
  simp [add_args_to_map, startswith_append, drop_two, h]

theorem add_args_cons_bare_val (m : VarMap) (a next : PyStr) (rest : List PyStr)
    (h : ¬ 0 < findEq a) (hn : startswith next (strL "--") = false) :
    add_args_to_map m ((strL "--" ++ a) :: next :: rest) =
      add_args_to_map (dictSet m a next) rest := by
  simp [add_args_to_map, startswith_append, drop_two, h, hn, dictSet_dictSet]

theorem add_args_cons_bare_flag (m : VarMap) (a next : PyStr) (rest : List PyStr)
    (h : ¬ 0 < findEq a) (hn : startswith next (strL "--") = true) :
    add_args_to_map m ((strL "--" ++ a) :: next :: rest) =
      add_args_to_map (dictSet m a (strL "")) (next :: rest) := by
  simp [add_args_to_map, startswith_append, drop_two, h, hn]

/-! ## The accumulator loop of `remove_raw_arg` against its direct recursion -/

theorem removeLoop_spec (flag : PyStr) (l acc : List PyStr) :
    removeLoop flag acc l = acc.reverse ++ removeSpec flag l := by
  have H : ∀ (n : Nat) (l : List PyStr), l.length ≤ n → ∀ acc : List PyStr,
      removeLoop flag acc l = acc.reverse ++ removeSpec flag l := by
    intro n
    induction n with
    | zero =>
      intro l hl acc
      cases l with
      | nil => simp [removeLoop, removeSpec]
      | cons a t => simp at hl
    | succ n ih =>
      intro l hl acc
      match l with
      | [] => simp [removeLoop, removeSpec]
      | [arg] =>
        by_cases hs : startswith arg flag = false <;> simp [removeLoop, removeSpec, hs]
      | arg :: next :: rest =>
        have hlen : (next :: rest).length ≤ n := by
          simp only [List.length_cons] at hl ⊢
          omega
        have hlen2 : rest.length ≤ n := by
          simp only [List.length_cons] at hl
          omega
        by_cases hs : startswith arg flag = false
        · have hrec := ih (next :: rest) hlen (arg :: acc)
          simp [removeLoop, removeSpec, hs, hrec]
        · by_cases hn : startswith next (strL "--") = false
          · have hrec := ih rest hlen2 acc
            simp [removeLoop, removeSpec, hs, hn, hrec]
          · have hrec := ih (next :: rest) hlen acc
            simp [removeLoop, removeSpec, hs, hn, hrec]
  exact H l.length l le_rfl acc

theorem remove_eq_spec (name : PyStr) (args : List PyStr) :
    remove_raw_arg name args = removeSpec (strL "--" ++ name) args := by
  simpa [remove_raw_arg] using removeLoop_spec (strL "--" ++ name) args []

theorem removeSpec_cons_false (flag arg : PyStr) (l : List PyStr)
    (h : startswith arg flag = false) :
    removeSpec flag (arg :: l) = arg :: removeSpec flag l := by
  cases l <;> simp [removeSpec, h]

theorem removeSpec_noop (flag : PyStr) (l : List PyStr)
    (h : ∀ a ∈ l, startswith a flag = false) : removeSpec flag l = l := by
  induction l with
  | nil => rfl
  | cons a t ih =>
    rw [removeSpec_cons_false _ _ _ (h a (by simp)),
        ih (fun x hx => h x (by simp [hx]))]

theorem removeSpec_clean (flag : PyStr) :
    ∀ (l : List PyStr) (a : PyStr), a ∈ removeSpec flag l → startswith a flag = false := by
  have H : ∀ (n : Nat) (l : List PyStr), l.length ≤ n → ∀ a : PyStr,
      a ∈ removeSpec flag l → startswith a flag = false := by
    intro n
    induction n with
    | zero =>
      intro l hl a ha
      cases l with
      | nil => simp [removeSpec] at ha
      | cons x t => simp at hl
    | succ n ih =>
      intro l hl a ha
      match l with
      | [] => simp [removeSpec] at ha
      | [arg] =>
        by_cases hs : startswith arg flag = false
        · simp [removeSpec, hs] at ha
          rwa [ha]
        · simp [removeSpec, hs] at ha
      | arg :: next :: rest =>
        have hlen : (next :: rest).length ≤ n := by
          simp only [List.length_cons] at hl ⊢
          omega
        have hlen2 : rest.length ≤ n := by
          simp only [List.length_cons] at hl
          omega
        by_cases hs : startswith arg flag = false
        · simp only [removeSpec, hs, if_true, List.mem_cons] at ha
          rcases ha with ha | ha
          · rwa [ha]
          · exact ih (next :: rest) hlen a ha
        · by_cases hn : startswith next (strL "--") = false
          · simp only [removeSpec, hs, hn, if_false, if_true] at ha
            exact ih rest hlen2 a ha
          · simp only [removeSpec, hs, hn, if_false] at ha
            exact ih (next :: rest) hlen a ha
  exact fun l a ha => H l.length l le_rfl a ha

/-! ## The merge preserves uniqueness of keys -/

theorem add_args_nodup (args : List PyStr) (m m2 : VarMap)
    (hm : (keys m).Nodup) (he : add_args_to_map m args = Except.ok m2) :
    (keys m2).Nodup := by
  have H : ∀ (n : Nat) (args : List PyStr), args.length ≤ n → ∀ m m2 : VarMap,
      (keys m).Nodup → add_args_to_map m args = Except.ok m2 → (keys m2).Nodup := by
    intro n
    induction n with
    | zero =>
      intro args hl m m2 hm he
      cases args with
      | nil =>
        simp [add_args_to_map] at he
        rwa [← he]
      | cons a t => simp at hl
    | succ n ih =>
      intro args hl m m2 hm he
      match args with
      | [] =>
        simp [add_args_to_map] at he
        rwa [← he]
      | [arg] =>
        by_cases hs : startswith arg (strL "--") = false
        · simp [add_args_to_map, hs] at he
        · by_cases h0 : 0 < findEq (arg.drop 2)
          · simp [add_args_to_map, hs, h0] at he
            rw [← he]
            exact nodup_keys_dictSet _ _ _ hm
          · simp [add_args_to_map, hs, h0] at he
            rw [← he]
            exact nodup_keys_dictSet _ _ _ hm
      | arg :: next :: rest =>
        have hlen : (next :: rest).length ≤ n := by
          simp only [List.length_cons] at hl ⊢
          omega
        have hlen2 : rest.length ≤ n := by
          simp only [List.length_cons] at hl
          omega
        by_cases hs : startswith arg (strL "--") = false
        · simp [add_args_to_map, hs] at he
        · by_cases h0 : 0 < findEq (arg.drop 2)
          · simp only [add_args_to_map, hs, h0, if_false, if_true] at he
            exact ih (next :: rest) hlen _ _ (nodup_keys_dictSet _ _ _ hm) he
          · by_cases hn : startswith next (strL "--") = false
            · simp only [add_args_to_map, hs, h0, hn, if_false, if_true] at he
              exact ih rest hlen2 _ _
                (nodup_keys_dictSet _ _ _ (nodup_keys_dictSet _ _ _ hm)) he
            · simp only [add_args_to_map, hs, h0, hn, if_false] at he
              exact ih (next :: rest) hlen _ _ (nodup_keys_dictSet _ _ _ hm) he
  exact H args.length args le_rfl m m2 hm he

/-! ## Event-trace helpers -/

theorem countEv_append (e : Event) (l1 l2 : List Event) :
    countEv e (l1 ++ l2) = countEv e l1 + countEv e l2 := by
  induction l1 with
  | nil => simp [countEv]
  | cons x t ih => simp [countEv, ih, Nat.add_assoc]

theorem countStr_eq_zero (k : PyStr) (l : List PyStr) (h : k ∉ l) :
    countStr k l = 0 := by
  induction l with
  | nil => rfl
  | cons x t ih =>
    simp only [List.mem_cons, not_or] at h
    obtain ⟨h1, h2⟩ := h
    have hx : ¬ (x = k) := fun hx => h1 hx.symm
    simp [countStr, hx, ih h2]

theorem countStr_nodup (k : PyStr) (l : List PyStr) (hn : l.Nodup) (hm : k ∈ l) :
    countStr k l = 1 := by
  induction l with
  | nil => simp at hm
  | cons x t ih =>
    obtain ⟨hx, ht⟩ := List.nodup_cons.mp hn
    rcases List.mem_cons.mp hm with hkx | hkt
    · subst hkx
      simp [countStr, countStr_eq_zero k t hx]
    · have hxk : ¬ (x = k) := by
        intro he
        exact hx (he ▸ hkt)
      simp [countStr, hxk, ih ht hkt]

theorem cleanup_count (st : BuilderState) :
    countEv Event.cleanupEnter (cleanup st).events =
      countEv Event.cleanupEnter st.events + 1 := by
  unfold cleanup
  cases hip : st.installer_path with
  | none => simp [hip, countEv_append, countEv]
  | some p =>
    by_cases hp : p.isEmpty <;> simp [hip, hp, countEv_append, countEv]

theorem cleanup_ends_hook (st : BuilderState) :
    ∃ l, (cleanup st).events = l ++ [Event.hookCleanup] := by
  unfold cleanup
  cases st.installer_path with
  | none => exact ⟨_, rfl⟩
  | some p =>
    by_cases hp : p.isEmpty
    · simp only [hp]
      exact ⟨_, rfl⟩
    · simp only [hp]
      exact ⟨_, rfl⟩

/-! ## Equations for the installer dispatch and the prepare step -/

theorem dpi_ok (opts : Options) (env : Env) (path : PyStr) (st : BuilderState)
    (prog : PyStr) (hdisp : progOf opts.release_path = some prog)
    (hcopy : env.copyOk = true) :
    do_prepare_installer opts env path st =
      (none, { st with in_subprocess := false,
                       events := st.events ++
                         [Event.runCmd (copyCmd prog opts.release_path path)] }) := by
  simp [do_prepare_installer, hdisp, hcopy]

theorem dpi_copyfail (opts : Options) (env : Env) (path : PyStr) (st : BuilderState)
    (prog : PyStr) (hdisp : progOf opts.release_path = some prog)
    (hcopy : env.copyOk = false) :
    do_prepare_installer opts env path st =
      (some (PyError.processError (copyCmd prog opts.release_path path)),
       { st with in_subprocess := true,
                 events := st.events ++
                   [Event.runCmd (copyCmd prog opts.release_path path)] }) := by
  simp [do_prepare_installer, hdisp, hcopy]

theorem dpi_badscheme (opts : Options) (env : Env) (path : PyStr) (st : BuilderState)
    (hdisp : progOf opts.release_path = none) :
    do_prepare_installer opts env path st =
      (some (PyError.valueError (dispatchErrMsg opts.release_path)), st) := by
  simp [do_prepare_installer, hdisp]

theorem prepare_run (opts : Options) (env : Env) (raw fs0 : List PyStr)
    (prog : PyStr) (m : VarMap)
    (hdisp : progOf opts.release_path = some prog) (hcopy : env.copyOk = true)
    (hm : add_args_to_map (dictSet [] ipKey env.tempPath) raw = Except.ok m) :
    prepare opts env (initState raw fs0) =
      (none,
       { fs := env.tempPath :: fs0, var_map := m, raw_args := raw,
         packer_vars := m.map fmt_packer_var, installer_path := some env.tempPath,
         in_subprocess := false, output := none,
         events := [Event.mkstempEv env.tempPath,
                    Event.runCmd (copyCmd prog opts.release_path env.tempPath),
                    Event.hookPrepare] }) := by
  unfold prepare initState
  dsimp only
  rw [dpi_ok _ _ _ _ _ hdisp hcopy]
  simp [hm]

theorem prepare_copyfail (opts : Options) (env : Env) (raw fs0 : List PyStr)
    (prog : PyStr)
    (hdisp : progOf opts.release_path = some prog) (hcopy : env.copyOk = false) :
    prepare opts env (initState raw fs0) =
      (some (PyError.processError (copyCmd prog opts.release_path env.tempPath)),
       { fs := env.tempPath :: fs0, var_map := dictSet [] ipKey env.tempPath,
         raw_args := raw, packer_vars := [], installer_path := some env.tempPath,
         in_subprocess := true, output := none,
         events := [Event.mkstempEv env.tempPath,
                    Event.runCmd (copyCmd prog opts.release_path env.tempPath)] }) := by
  unfold prepare initState
  dsimp only
  rw [dpi_copyfail _ _ _ _ _ hdisp hcopy]
  simp

theorem prepare_mergefail (opts : Options) (env : Env) (raw fs0 : List PyStr)
    (prog : PyStr) (msg : PyStr)
    (hdisp : progOf opts.release_path = some prog) (hcopy : env.copyOk = true)
    (hm : add_args_to_map (dictSet [] ipKey env.tempPath) raw = Except.error msg) :
    prepare opts env (initState raw fs0) =
      (some (PyError.valueError msg),
       { fs := env.tempPath :: fs0, var_map := dictSet [] ipKey env.tempPath,
         raw_args := raw, packer_vars := [], installer_path := some env.tempPath,
         in_subprocess := false, output := none,
         events := [Event.mkstempEv env.tempPath,
                    Event.runCmd (copyCmd prog opts.release_path env.tempPath),
                    Event.hookPrepare] }) := by
  unfold prepare initState
  dsimp only
  rw [dpi_ok _ _ _ _ _ hdisp hcopy]
  simp [hm]

theorem prepare_badscheme (opts : Options) (env : Env) (raw fs0 : List PyStr)
    (hdisp : progOf opts.release_path = none) :
    prepare opts env (initState raw fs0) =
      (some (PyError.valueError (dispatchErrMsg opts.release_path)),
       { fs := env.tempPath :: fs0, var_map := dictSet [] ipKey env.tempPath,
         raw_args := raw, packer_vars := [], installer_path := some env.tempPath,
         in_subprocess := false, output := none,
         events := [Event.mkstempEv env.tempPath] }) := by
  unfold prepare initState
  dsimp only
  rw [dpi_badscheme _ _ _ _ hdisp]
  simp

/-! ## Equations for `create_image` -/

theorem create_image_run (opts : Options) (env : Env) (raw fs0 : List PyStr)
    (prog : PyStr) (m : VarMap) (out : PyStr)
    (hdisp : progOf opts.release_path = some prog) (hcopy : env.copyOk = true)
    (hm : add_args_to_map (dictSet [] ipKey env.tempPath) raw = Except.ok m)
    (hpack : env.packerResult = some out) (hne : env.tempPath ≠ []) :
    create_image opts env (initState raw fs0) =
      (none,
       { fs := fs0, var_map := m, raw_args := raw,
         packer_vars := m.map fmt_packer_var, installer_path := some env.tempPath,
         in_subprocess := false, output := some out,
         events := [Event.mkstempEv env.tempPath,
                    Event.runCmd (copyCmd prog opts.release_path env.tempPath),
                    Event.hookPrepare,
                    Event.packerRun (pkCmd (m.map fmt_packer_var) env.packerTemplate),
                    Event.cleanupEnter, Event.removeAttempt env.tempPath,
                    Event.hookCleanup] }) := by
  have hie : env.tempPath.isEmpty = false := by
    cases h : env.tempPath with
    | nil => exact absurd h hne
    | cons a t => rfl
  unfold create_image
  rw [prepare_run opts env raw fs0 prog m hdisp hcopy hm]
  simp [hpack, cleanup, hie, List.erase_cons_head]

theorem create_image_packerfail (opts : Options) (env : Env) (raw fs0 : List PyStr)
    (prog : PyStr) (m : VarMap)
    (hdisp : progOf opts.release_path = some prog) (hcopy : env.copyOk = true)
    (hm : add_args_to_map (dictSet [] ipKey env.tempPath) raw = Except.ok m)
    (hpack : env.packerResult = none) (hne : env.tempPath ≠ []) :
    create_image opts env (initState raw fs0) =
      (some (PyError.processError (pkCmd (m.map fmt_packer_var) env.packerTemplate)),
       { fs := fs0, var_map := m, raw_args := raw,
         packer_vars := m.map fmt_packer_var, installer_path := some env.tempPath,
         in_subprocess := true, output := none,
         events := [Event.mkstempEv env.tempPath,
                    Event.runCmd (copyCmd prog opts.release_path env.tempPath),
                    Event.hookPrepare,
                    Event.packerRun (pkCmd (m.map fmt_packer_var) env.packerTemplate),
                    Event.cleanupEnter, Event.removeAttempt env.tempPath,
                    Event.hookCleanup] }) := by
  have hie : env.tempPath.isEmpty = false := by
    cases h : env.tempPath with
    | nil => exact absurd h hne
    | cons a t => rfl
  unfold create_image
  rw [prepare_run opts env raw fs0 prog m hdisp hcopy hm]
  simp [hpack, cleanup, hie, List.erase_cons_head]

theorem create_image_of_prepare_err (opts : Options) (env : Env) (st st1 : BuilderState)
    (e : PyError) (h : prepare opts env st = (some e, st1)) :
    create_image opts env st = (some e, st1) := by
  unfold create_image
  rw [h]

/-! ## Inversion lemmas -/

theorem prepare_none_inv (opts : Options) (env : Env) (st : BuilderState)
    (h : (prepare opts env st).1 = none) :
    ∃ prog, progOf opts.release_path = some prog ∧ env.copyOk = true ∧
      ∃ m, add_args_to_map (dictSet st.var_map ipKey env.tempPath) st.raw_args =
        Except.ok m := by
  cases hdisp : progOf opts.release_path with
  | none =>
    unfold prepare at h
    dsimp only at h
    rw [dpi_badscheme _ _ _ _ hdisp] at h
    simp at h
  | some prog =>
    cases hcopy : env.copyOk with
    | false =>
      unfold prepare at h
      dsimp only at h
      rw [dpi_copyfail _ _ _ _ _ hdisp hcopy] at h
      simp at h
    | true =>
      unfold prepare at h
      dsimp only at h
      rw [dpi_ok _ _ _ _ _ hdisp hcopy] at h
      cases hm : add_args_to_map (dictSet st.var_map ipKey env.tempPath) st.raw_args with
      | error msg =>
        simp [hm] at h
      | ok m => exact ⟨prog, rfl, rfl, m, rfl⟩

theorem create_image_none_inv (opts : Options) (env : Env) (st : BuilderState)
    (h : (create_image opts env st).1 = none) :
    (prepare opts env st).1 = none ∧ ∃ out, env.packerResult = some out := by
  unfold create_image at h
  cases hp : prepare opts env st with
  | mk e st1 =>
    cases e with
    | some e2 =>
      rw [hp] at h
      simp at h
    | none =>
      rw [hp] at h
      cases hpk : env.packerResult with
      | none =>
        rw [hpk] at h
        simp at h
      | some out => exact ⟨rfl, out, rfl⟩

theorem prepare_count_zero (opts : Options) (env : Env) (raw fs0 : List PyStr) :
    countEv Event.cleanupEnter (prepare opts env (initState raw fs0)).2.events = 0 := by
  cases hdisp : progOf opts.release_path with
  | none =>
    rw [prepare_badscheme _ _ _ _ hdisp]
    simp [countEv]
  | some prog =>
    cases hcopy : env.copyOk with
    | false =>
      rw [prepare_copyfail _ _ _ _ _ hdisp hcopy]
      simp [countEv]
    | true =>
      cases hm : add_args_to_map (dictSet [] ipKey env.tempPath) raw with
      | error msg =>
        rw [prepare_mergefail _ _ _ _ _ _ hdisp hcopy hm]
        simp [countEv]
      | ok m =>
        rw [prepare_run _ _ _ _ _ _ hdisp hcopy hm]
        simp [countEv]


/-! ## Claim theorems -/

/-- C2: in the raw-argument merge, a token not beginning with `--` fails
with an "Unexpected argument" error; `--name=value` sets `name` to `value`
(for a well-formed flag name: nonempty, no `=`); a bare `--name` takes the
following token as its value when that token does not begin with `--`, and
otherwise sets the empty string; and the raw args
`["--foo=1", "--bar", "2", "--baz"]` merge to `{foo:1, bar:2, baz:""}`. -/
theorem c2_merge_semantics :
    (∀ (m : VarMap) (arg : PyStr) (rest : List PyStr),
        startswith arg (strL "--") = false →
        add_args_to_map m (arg :: rest) =
          Except.error (strL "Unexpected argument \"" ++ arg ++ strL "\"")) ∧
    (∀ (m : VarMap) (name value : PyStr) (rest : List PyStr),
        name ≠ [] → '=' ∉ name →
        add_args_to_map m ((strL "--" ++ name ++ '=' :: value) :: rest) =
          add_args_to_map (dictSet m name value) rest) ∧
    (∀ (m : VarMap) (name next : PyStr) (rest : List PyStr),
        '=' ∉ name → startswith next (strL "--") = false →
        add_args_to_map m ((strL "--" ++ name) :: next :: rest) =
          add_args_to_map (dictSet m name next) rest) ∧
    (∀ (m : VarMap) (name next : PyStr) (rest : List PyStr),
        '=' ∉ name → startswith next (strL "--") = true →
        add_args_to_map m ((strL "--" ++ name) :: next :: rest) =
          add_args_to_map (dictSet m name (strL "")) (next :: rest)) ∧
    (∀ (m : VarMap) (name : PyStr), '=' ∉ name →
        add_args_to_map m [strL "--" ++ name] = Except.ok (dictSet m name (strL ""))) ∧
    add_args_to_map [] [strL "--foo=1", strL "--bar", strL "2", strL "--baz"] =
      Except.ok [(strL "foo", strL "1"), (strL "bar", strL "2"), (strL "baz", strL "")] := by
  refine ⟨fun m arg rest h => add_args_badarg m arg rest h,
          fun m name value rest h1 h2 => add_args_cons_pair m name value rest h1 h2,
          fun m name next rest h2 hn =>
            add_args_cons_bare_val m name next rest
              (by rw [findEq_of_not_mem h2]; decide) hn,
          fun m name next rest h2 hn =>
            add_args_cons_bare_flag m name next rest
              (by rw [findEq_of_not_mem h2]; decide) hn,
          fun m name h2 =>
            add_args_cons_bare_nil m name (by rw [findEq_of_not_mem h2]; decide),
          by decide⟩

/-- Witness for C2: each conditional clause instantiated at a concrete input. -/
theorem c2_merge_semantics_witness :
    add_args_to_map [] [strL "oops"] =
      Except.error (strL "Unexpected argument \"" ++ strL "oops" ++ strL "\"") ∧
    add_args_to_map [] [strL "--" ++ strL "foo" ++ '=' :: strL "1"] =
      add_args_to_map (dictSet [] (strL "foo") (strL "1")) [] ∧
    add_args_to_map [] [strL "--" ++ strL "bar", strL "2"] =
      add_args_to_map (dictSet [] (strL "bar") (strL "2")) [] ∧
    add_args_to_map [] [strL "--" ++ strL "bar", strL "--baz"] =
      add_args_to_map (dictSet [] (strL "bar") (strL "")) [strL "--baz"] ∧
    add_args_to_map [] [strL "--" ++ strL "baz"] =
      Except.ok (dictSet [] (strL "baz") (strL "")) :=
  ⟨c2_merge_semantics.1 [] (strL "oops") [] (by decide),
   c2_merge_semantics.2.1 [] (strL "foo") (strL "1") [] (by decide) (by decide),
   c2_merge_semantics.2.2.1 [] (strL "bar") (strL "2") [] (by decide) (by decide),
   c2_merge_semantics.2.2.2.1 [] (strL "bar") (strL "--baz") [] (by decide) (by decide),
   c2_merge_semantics.2.2.2.2.1 [] (strL "baz") (by decide)⟩

/-- C3 counterexample: `remove_raw_arg "foo"` matches by prefix, so the
token `--foobar` — which is neither `--foo` nor of the form `--foo=value`,
that is, the name `foo` is absent — is removed instead of being left
unchanged. -/
theorem c3_remove_counterexample :
    (strL "--foobar" == strL "--foo") = false ∧
    startswith (strL "--foobar") (strL "--foo=") = false ∧
    remove_raw_arg (strL "foo") [strL "--foobar"] = [] := by decide

/-- C3 (amended): `remove_raw_arg name` removes every token that *begins
with* `--name` (in particular `--name` and `--name=value`), together with
its immediately following token when that token does not itself begin with
`--`; it leaves the sequence unchanged exactly when no token begins with
`--name`. -/
theorem c3_remove_semantics (name : PyStr) (args : List PyStr) :
    remove_raw_arg name args = removeSpec (strL "--" ++ name) args ∧
    (∀ a ∈ remove_raw_arg name args, startswith a (strL "--" ++ name) = false) ∧
    ((∀ a ∈ args, startswith a (strL "--" ++ name) = false) →
      remove_raw_arg name args = args) := by
  refine ⟨remove_eq_spec name args, ?_, ?_⟩
  · intro a ha
    rw [remove_eq_spec] at ha
    exact removeSpec_clean _ _ _ ha
  · intro h
    rw [remove_eq_spec]
    exact removeSpec_noop _ _ h

/-- Witness for C3 (amended), at concrete inputs. -/
theorem c3_remove_semantics_witness :
    remove_raw_arg (strL "foo") [strL "--foo", strL "2", strL "--keep"] =
      removeSpec (strL "--" ++ strL "foo") [strL "--foo", strL "2", strL "--keep"] ∧
    startswith (strL "--keep") (strL "--" ++ strL "foo") = false ∧
    remove_raw_arg (strL "foo") [strL "--other", strL "x"] = [strL "--other", strL "x"] :=
  ⟨(c3_remove_semantics (strL "foo") [strL "--foo", strL "2", strL "--keep"]).1,
   (c3_remove_semantics (strL "foo") [strL "--foo", strL "2", strL "--keep"]).2.1
     (strL "--keep") (by decide),
   (c3_remove_semantics (strL "foo") [strL "--other", strL "x"]).2.2 (by decide)⟩

/-- C10: a raw token that is exactly `--` (or of the form `--=value`) does
not raise "Unexpected argument": it creates a variable with the empty name
(respectively a name beginning with `=`), and for the bare `--` the
following non-flag token is consumed as its value. -/
theorem c10_degenerate_flags :
    (∀ m : VarMap, add_args_to_map m [strL "--"] =
        Except.ok (dictSet m (strL "") (strL ""))) ∧
    (∀ (m : VarMap) (next : PyStr) (rest : List PyStr),
      startswith next (strL "--") = false →
      add_args_to_map m (strL "--" :: next :: rest) =
        add_args_to_map (dictSet m (strL "") next) rest) ∧
    (∀ (m : VarMap) (next : PyStr) (rest : List PyStr),
      startswith next (strL "--") = true →
      add_args_to_map m (strL "--" :: next :: rest) =
        add_args_to_map (dictSet m (strL "") (strL "")) (next :: rest)) ∧
    (∀ (m : VarMap) (v : PyStr),
      add_args_to_map m [strL "--=" ++ v] =
        Except.ok (dictSet m ('=' :: v) (strL ""))) ∧
    (∀ (m : VarMap) (v next : PyStr) (rest : List PyStr),
      startswith next (strL "--") = false →
      add_args_to_map m ((strL "--=" ++ v) :: next :: rest) =
        add_args_to_map (dictSet m ('=' :: v) next) rest) := by
  have h0 : ¬ 0 < findEq (strL "") := by decide
  have hv : ∀ v : PyStr, ¬ 0 < findEq ('=' :: v) := by
    intro v
    simp [findEq]
  refine ⟨?_, ?_, ?_, ?_, ?_⟩
  · intro m
    have h := add_args_cons_bare_nil m (strL "") h0
    have he : strL "--" ++ strL "" = strL "--" := rfl
    rwa [he] at h
  · intro m next rest hn
    have h := add_args_cons_bare_val m (strL "") next rest h0 hn
    have he : strL "--" ++ strL "" = strL "--" := rfl
    rwa [he] at h
  · intro m next rest hn
    have h := add_args_cons_bare_flag m (strL "") next rest h0 hn
    have he : strL "--" ++ strL "" = strL "--" := rfl
    rwa [he] at h
  · intro m v
    have h := add_args_cons_bare_nil m ('=' :: v) (hv v)
    have he : strL "--" ++ ('=' :: v) = strL "--=" ++ v := rfl
    rwa [he] at h
  · intro m v next rest hn
    have h := add_args_cons_bare_val m ('=' :: v) next rest (hv v) hn
    have he : strL "--" ++ ('=' :: v) = strL "--=" ++ v := rfl
    rwa [he] at h

/-- Witness for C10: the conditional clauses instantiated concretely. -/
theorem c10_degenerate_flags_witness :
    add_args_to_map [] (strL "--" :: strL "x" :: []) =
      add_args_to_map (dictSet [] (strL "") (strL "x")) [] ∧
    add_args_to_map [] (strL "--" :: strL "--x" :: []) =
      add_args_to_map (dictSet [] (strL "") (strL "")) (strL "--x" :: []) ∧
    add_args_to_map [] ((strL "--=" ++ strL "v") :: strL "w" :: []) =
      add_args_to_map (dictSet [] ('=' :: strL "v") (strL "w")) [] :=
  ⟨c10_degenerate_flags.2.1 [] (strL "x") [] (by decide),
   c10_degenerate_flags.2.2.1 [] (strL "--x") [] (by decide),
   c10_degenerate_flags.2.2.2.2 [] (strL "v") (strL "w") [] (by decide)⟩


/-- C4: the default installer-prepare step dispatches on the URI scheme of
`release_path`: `gs://` runs the `gsutil` copy command, `s3://` runs the
`aws s3` copy command, and any other scheme raises a `ValueError` with the
state unchanged — in particular before any subprocess event is emitted. -/
theorem c4_installer_dispatch (opts : Options) (env : Env) (path : PyStr)
    (st : BuilderState) :
    (startswith opts.release_path (strL "gs://") = true →
      (do_prepare_installer opts env path st).2.events =
        st.events ++ [Event.runCmd (copyCmd (strL "gsutil") opts.release_path path)]) ∧
    (startswith opts.release_path (strL "gs://") = false →
      startswith opts.release_path (strL "s3://") = true →
      (do_prepare_installer opts env path st).2.events =
        st.events ++ [Event.runCmd (copyCmd (strL "aws s3") opts.release_path path)]) ∧
    (startswith opts.release_path (strL "gs://") = false →
      startswith opts.release_path (strL "s3://") = false →
      do_prepare_installer opts env path st =
        (some (PyError.valueError (dispatchErrMsg opts.release_path)), st)) := by
  refine ⟨?_, ?_, ?_⟩
  · intro hg
    have hdisp : progOf opts.release_path = some (strL "gsutil") := by
      simp [progOf, hg]
    cases hcopy : env.copyOk
    · rw [dpi_copyfail _ _ _ _ _ hdisp hcopy]
    · rw [dpi_ok _ _ _ _ _ hdisp hcopy]
  · intro hg hs
    have hdisp : progOf opts.release_path = some (strL "aws s3") := by
      simp [progOf, hg, hs]
    cases hcopy : env.copyOk
    · rw [dpi_copyfail _ _ _ _ _ hdisp hcopy]
    · rw [dpi_ok _ _ _ _ _ hdisp hcopy]
  · intro hg hs
    exact dpi_badscheme _ _ _ _ (by simp [progOf, hg, hs])

/-- Witness for C4 at `gs://x/y`, `s3://x/y` and `ftp://x/y`. -/
theorem c4_installer_dispatch_witness :
    (do_prepare_installer optsG envG (strL "/tmp/inst") (initState [] [])).2.events =
      (initState [] []).events ++
        [Event.runCmd (copyCmd (strL "gsutil") optsG.release_path (strL "/tmp/inst"))] ∧
    (do_prepare_installer optsS3 envG (strL "/tmp/inst") (initState [] [])).2.events =
      (initState [] []).events ++
        [Event.runCmd (copyCmd (strL "aws s3") optsS3.release_path (strL "/tmp/inst"))] ∧
    do_prepare_installer optsFtp envG (strL "/tmp/inst") (initState [] []) =
      (some (PyError.valueError (dispatchErrMsg optsFtp.release_path)), initState [] []) :=
  ⟨(c4_installer_dispatch optsG envG (strL "/tmp/inst") (initState [] [])).1 (by decide),
   (c4_installer_dispatch optsS3 envG (strL "/tmp/inst") (initState [] [])).2.1
     (by decide) (by decide),
   (c4_installer_dispatch optsFtp envG (strL "/tmp/inst") (initState [] [])).2.2
     (by decide) (by decide)⟩

/-- C5: a failure while the in-subprocess flag is set — the storage copy
command or the packer invocation — makes the driver exit silently with a
non-zero status, while a failure during argument merging (flag cleared) is
re-raised with a full trace. -/
theorem c5_failure_reporting (opts : Options) (env : Env) (raw fs0 : List PyStr) :
    (∀ prog, progOf opts.release_path = some prog → env.copyOk = false →
        mainRun opts env raw fs0 = MainResult.silentExit (-1)) ∧
    (∀ prog m, progOf opts.release_path = some prog → env.copyOk = true →
        add_args_to_map (dictSet [] ipKey env.tempPath) raw = Except.ok m →
        env.packerResult = none → env.tempPath ≠ [] →
        mainRun opts env raw fs0 = MainResult.silentExit (-1)) ∧
    (∀ prog msg, progOf opts.release_path = some prog → env.copyOk = true →
        add_args_to_map (dictSet [] ipKey env.tempPath) raw = Except.error msg →
        mainRun opts env raw fs0 = MainResult.tracedError (PyError.valueError msg)) := by
  refine ⟨?_, ?_, ?_⟩
  · intro prog hdisp hcopy
    unfold mainRun
    rw [create_image_of_prepare_err _ _ _ _ _
          (prepare_copyfail opts env raw fs0 prog hdisp hcopy)]
    rfl
  · intro prog m hdisp hcopy hm hpk hne
    unfold mainRun
    rw [create_image_packerfail opts env raw fs0 prog m hdisp hcopy hm hpk hne]
    rfl
  · intro prog msg hdisp hcopy hm
    unfold mainRun
    rw [create_image_of_prepare_err _ _ _ _ _
          (prepare_mergefail opts env raw fs0 prog msg hdisp hcopy hm)]
    rfl

/-- Witness for C5: copy failure and packer failure exit silently, a bad
raw token is re-raised with a trace. -/
theorem c5_failure_reporting_witness :
    mainRun optsG envCopyFail [] [] = MainResult.silentExit (-1) ∧
    mainRun optsG envPackerFail [] [] = MainResult.silentExit (-1) ∧
    mainRun optsG envG [strL "boom"] [] =
      MainResult.tracedError (PyError.valueError (strL "Unexpected argument \"boom\"")) :=
  ⟨(c5_failure_reporting optsG envCopyFail [] []).1 (strL "gsutil") (by decide) (by decide),
   (c5_failure_reporting optsG envPackerFail [] []).2.1 (strL "gsutil")
     [(ipKey, strL "/tmp/inst")] (by decide) (by decide) (by decide) (by decide) (by decide),
   (c5_failure_reporting optsG envG [strL "boom"] []).2.2 (strL "gsutil")
     (strL "Unexpected argument \"boom\"") (by decide) (by decide) (by decide)⟩

/-- C6 counterexample: in the cleanup step the deletion attempt happens
*before* the `cleanup()` hook, not after it as the claim states: on a state
with a recorded installer path, the trace is
`[cleanupEnter, removeAttempt, hookCleanup]`, so the hook does not precede
the deletion. -/
theorem c6_cleanup_order_counterexample :
    (cleanup stC6).events =
      [Event.cleanupEnter, Event.removeAttempt (strL "/tmp/inst"), Event.hookCleanup] ∧
    evBeforeB Event.hookCleanup (Event.removeAttempt (strL "/tmp/inst"))
      (cleanup stC6).events = false ∧
    evBeforeB (Event.removeAttempt (strL "/tmp/inst")) Event.hookCleanup
      (cleanup stC6).events = true := by decide

/-- C6 (amended): the cleanup step first best-effort deletes the temporary
installer file when an installer path is recorded and non-empty (ignoring
any deletion error — the file-system erase is a no-op when the file is
absent), and only then calls the `cleanup()` hook, which is always the last
action. -/
theorem c6_cleanup_order (st : BuilderState) :
    (∀ p, st.installer_path = some p → p.isEmpty = false →
      (cleanup st).events =
        st.events ++ [Event.cleanupEnter, Event.removeAttempt p, Event.hookCleanup] ∧
      (cleanup st).fs = st.fs.erase p) ∧
    (st.installer_path = none →
      (cleanup st).events = st.events ++ [Event.cleanupEnter, Event.hookCleanup] ∧
      (cleanup st).fs = st.fs) ∧
    (∃ l, (cleanup st).events = l ++ [Event.hookCleanup]) := by
  refine ⟨?_, ?_, cleanup_ends_hook st⟩
  · intro p hip hne
    constructor
    · simp [cleanup, hip, hne]
    · simp [cleanup, hip, hne]
  · intro hip
    constructor
    · simp [cleanup, hip]
    · simp [cleanup, hip]

/-- Witness for C6 (amended) on a state with a recorded installer path. -/
theorem c6_cleanup_order_witness :
    ((cleanup stC6).events =
      stC6.events ++ [Event.cleanupEnter, Event.removeAttempt (strL "/tmp/inst"),
                      Event.hookCleanup] ∧
     (cleanup stC6).fs = stC6.fs.erase (strL "/tmp/inst")) :=
  (c6_cleanup_order stC6).1 (strL "/tmp/inst") (by decide) (by decide)


/-- C7: on every run that reaches the build-tool invocation — that is,
whenever the prepare step succeeds, whether the packer run then succeeds
or fails — the packer variable arguments are exactly the image of the
variable map under the `-var "name=value"` formatting — one argument per
entry, nothing else — every key occurs in exactly one entry, and the
packer command is invoked with precisely those arguments. -/
theorem c7_packer_vars_invariant (opts : Options) (env : Env) (raw fs0 : List PyStr)
    (hne : env.tempPath ≠ [])
    (h : (prepare opts env (initState raw fs0)).1 = none) :
    (create_image opts env (initState raw fs0)).2.packer_vars =
      (create_image opts env (initState raw fs0)).2.var_map.map fmt_packer_var ∧
    (create_image opts env (initState raw fs0)).2.packer_vars.length =
      (create_image opts env (initState raw fs0)).2.var_map.length ∧
    (∀ p ∈ (create_image opts env (initState raw fs0)).2.var_map,
      fmt_packer_var p ∈ (create_image opts env (initState raw fs0)).2.packer_vars) ∧
    (∀ a ∈ (create_image opts env (initState raw fs0)).2.packer_vars,
      ∃ p ∈ (create_image opts env (initState raw fs0)).2.var_map,
        a = fmt_packer_var p) ∧
    (∀ k ∈ keys (create_image opts env (initState raw fs0)).2.var_map,
      countStr k (keys (create_image opts env (initState raw fs0)).2.var_map) = 1) ∧
    Event.packerRun
        (pkCmd (create_image opts env (initState raw fs0)).2.packer_vars
          env.packerTemplate) ∈
      (create_image opts env (initState raw fs0)).2.events := by
  obtain ⟨prog, hdisp, hcopy, m, hm⟩ := prepare_none_inv _ _ _ h
  have hnodup : (keys m).Nodup := by
    refine add_args_nodup raw (dictSet [] ipKey env.tempPath) m ?_ hm
    simp [dictSet, keys]
  cases hpk : env.packerResult with
  | none =>
    rw [create_image_packerfail opts env raw fs0 prog m hdisp hcopy hm hpk hne]
    refine ⟨rfl, by simp, ?_, ?_, ?_, by simp⟩
    · intro p hp
      exact List.mem_map_of_mem _ hp
    · intro a ha
      obtain ⟨p, hp, hfa⟩ := List.mem_map.mp ha
      exact ⟨p, hp, hfa.symm⟩
    · intro k hk
      exact countStr_nodup k (keys m) hnodup hk
  | some out =>
    rw [create_image_run opts env raw fs0 prog m out hdisp hcopy hm hpk hne]
    refine ⟨rfl, by simp, ?_, ?_, ?_, by simp⟩
    · intro p hp
      exact List.mem_map_of_mem _ hp
    · intro a ha
      obtain ⟨p, hp, hfa⟩ := List.mem_map.mp ha
      exact ⟨p, hp, hfa.symm⟩
    · intro k hk
      exact countStr_nodup k (keys m) hnodup hk

/-- Witness for C7 with one extra flag, on a run where packer succeeds and
on a run where packer is invoked and then fails. -/
theorem c7_packer_vars_invariant_witness :
    ((create_image optsG envG (initState [strL "--foo=1"] [])).2.packer_vars =
      (create_image optsG envG (initState [strL "--foo=1"] [])).2.var_map.map
        fmt_packer_var ∧
    (create_image optsG envG (initState [strL "--foo=1"] [])).2.packer_vars.length =
      (create_image optsG envG (initState [strL "--foo=1"] [])).2.var_map.length ∧
    (∀ p ∈ (create_image optsG envG (initState [strL "--foo=1"] [])).2.var_map,
      fmt_packer_var p ∈
        (create_image optsG envG (initState [strL "--foo=1"] [])).2.packer_vars) ∧
    (∀ a ∈ (create_image optsG envG (initState [strL "--foo=1"] [])).2.packer_vars,
      ∃ p ∈ (create_image optsG envG (initState [strL "--foo=1"] [])).2.var_map,
        a = fmt_packer_var p) ∧
    (∀ k ∈ keys (create_image optsG envG (initState [strL "--foo=1"] [])).2.var_map,
      countStr k
        (keys (create_image optsG envG (initState [strL "--foo=1"] [])).2.var_map) = 1) ∧
    Event.packerRun
        (pkCmd (create_image optsG envG (initState [strL "--foo=1"] [])).2.packer_vars
          envG.packerTemplate) ∈
      (create_image optsG envG (initState [strL "--foo=1"] [])).2.events) ∧
    ((create_image optsG envPackerFail (initState [strL "--foo=1"] [])).2.packer_vars =
      (create_image optsG envPackerFail (initState [strL "--foo=1"] [])).2.var_map.map
        fmt_packer_var ∧
    (create_image optsG envPackerFail
        (initState [strL "--foo=1"] [])).2.packer_vars.length =
      (create_image optsG envPackerFail (initState [strL "--foo=1"] [])).2.var_map.length ∧
    (∀ p ∈ (create_image optsG envPackerFail (initState [strL "--foo=1"] [])).2.var_map,
      fmt_packer_var p ∈
        (create_image optsG envPackerFail (initState [strL "--foo=1"] [])).2.packer_vars) ∧
    (∀ a ∈ (create_image optsG envPackerFail
        (initState [strL "--foo=1"] [])).2.packer_vars,
      ∃ p ∈ (create_image optsG envPackerFail (initState [strL "--foo=1"] [])).2.var_map,
        a = fmt_packer_var p) ∧
    (∀ k ∈ keys (create_image optsG envPackerFail
        (initState [strL "--foo=1"] [])).2.var_map,
      countStr k
        (keys (create_image optsG envPackerFail
          (initState [strL "--foo=1"] [])).2.var_map) = 1) ∧
    Event.packerRun
        (pkCmd (create_image optsG envPackerFail
            (initState [strL "--foo=1"] [])).2.packer_vars
          envPackerFail.packerTemplate) ∈
      (create_image optsG envPackerFail (initState [strL "--foo=1"] [])).2.events) :=
  ⟨c7_packer_vars_invariant optsG envG [strL "--foo=1"] [] (by decide) (by decide),
   c7_packer_vars_invariant optsG envPackerFail [strL "--foo=1"] []
     (by decide) (by decide)⟩

/-- C8: after a successful `create_image` run, the temporary installer
file allocated in the prepare step is no longer on disk (given that
`mkstemp` returned a fresh, non-empty path). -/
theorem c8_temp_file_removed (opts : Options) (env : Env) (raw fs0 : List PyStr)
    (hne : env.tempPath ≠ []) (hfresh : env.tempPath ∉ fs0)
    (h : (create_image opts env (initState raw fs0)).1 = none) :
    (create_image opts env (initState raw fs0)).2.installer_path = some env.tempPath ∧
    env.tempPath ∉ (create_image opts env (initState raw fs0)).2.fs := by
  obtain ⟨hprep, out, hpk⟩ := create_image_none_inv _ _ _ h
  obtain ⟨prog, hdisp, hcopy, m, hm⟩ := prepare_none_inv _ _ _ hprep
  rw [create_image_run opts env raw fs0 prog m out hdisp hcopy hm hpk hne]
  exact ⟨rfl, hfresh⟩

/-- Witness for C8 on a concrete successful run. -/
theorem c8_temp_file_removed_witness :
    (create_image optsG envG (initState [] [])).2.installer_path =
      some envG.tempPath ∧
    envG.tempPath ∉ (create_image optsG envG (initState [] [])).2.fs :=
  c8_temp_file_removed optsG envG [] [] (by decide) (by decide) (by decide)

/-- C9: because the merge runs after the reserved `installer_path` entry is
registered, a raw flag `--installer_path=X` overwrites that entry in the
variable map (and hence in the packer arguments), while the installer is
still fetched to, and later deleted from, the original temporary path. -/
theorem c9_installer_path_override (opts : Options) (env : Env) (fs0 : List PyStr)
    (X prog out : PyStr)
    (hdisp : progOf opts.release_path = some prog) (hcopy : env.copyOk = true)
    (hpack : env.packerResult = some out) (hne : env.tempPath ≠ [])
    (hfresh : env.tempPath ∉ fs0) :
    (create_image opts env (initState [strL "--" ++ ipKey ++ '=' :: X] fs0)).1 = none ∧
    dictGet (create_image opts env
        (initState [strL "--" ++ ipKey ++ '=' :: X] fs0)).2.var_map ipKey = some X ∧
    (create_image opts env
        (initState [strL "--" ++ ipKey ++ '=' :: X] fs0)).2.installer_path =
      some env.tempPath ∧
    Event.runCmd (copyCmd prog opts.release_path env.tempPath) ∈
      (create_image opts env (initState [strL "--" ++ ipKey ++ '=' :: X] fs0)).2.events ∧
    Event.removeAttempt env.tempPath ∈
      (create_image opts env (initState [strL "--" ++ ipKey ++ '=' :: X] fs0)).2.events ∧
    env.tempPath ∉
      (create_image opts env (initState [strL "--" ++ ipKey ++ '=' :: X] fs0)).2.fs ∧
    fmt_packer_var (ipKey, X) ∈
      (create_image opts env
        (initState [strL "--" ++ ipKey ++ '=' :: X] fs0)).2.packer_vars := by
  have hm : add_args_to_map (dictSet [] ipKey env.tempPath)
      [strL "--" ++ ipKey ++ '=' :: X] = Except.ok [(ipKey, X)] := by
    rw [add_args_cons_pair _ ipKey X [] (by decide) (by decide)]
    have h2 : dictSet (dictSet [] ipKey env.tempPath) ipKey X = [(ipKey, X)] := by
      simp [dictSet]
    rw [h2]
    rfl
  rw [create_image_run opts env [strL "--" ++ ipKey ++ '=' :: X] fs0 prog
        [(ipKey, X)] out hdisp hcopy hm hpack hne]
  refine ⟨rfl, by simp [dictGet], rfl, by simp, by simp, hfresh, by simp⟩

/-- Witness for C9 with `X = "/custom"` under a successful environment. -/
theorem c9_installer_path_override_witness :
    (create_image optsG envG
        (initState [strL "--" ++ ipKey ++ '=' :: strL "/custom"] [])).1 = none ∧
    dictGet (create_image optsG envG
        (initState [strL "--" ++ ipKey ++ '=' :: strL "/custom"] [])).2.var_map ipKey =
      some (strL "/custom") ∧
    (create_image optsG envG
        (initState [strL "--" ++ ipKey ++ '=' :: strL "/custom"] [])).2.installer_path =
      some envG.tempPath ∧
    Event.runCmd (copyCmd (strL "gsutil") optsG.release_path envG.tempPath) ∈
      (create_image optsG envG
        (initState [strL "--" ++ ipKey ++ '=' :: strL "/custom"] [])).2.events ∧
    Event.removeAttempt envG.tempPath ∈
      (create_image optsG envG
        (initState [strL "--" ++ ipKey ++ '=' :: strL "/custom"] [])).2.events ∧
    envG.tempPath ∉
      (create_image optsG envG
        (initState [strL "--" ++ ipKey ++ '=' :: strL "/custom"] [])).2.fs ∧
    fmt_packer_var (ipKey, strL "/custom") ∈
      (create_image optsG envG
        (initState [strL "--" ++ ipKey ++ '=' :: strL "/custom"] [])).2.packer_vars :=
  c9_installer_path_override optsG envG [] (strL "/custom") (strL "gsutil")
    (strL "packer-out") (by decide) (by decide) (by decide) (by decide) (by decide)

/-- C1 counterexample: when the prepare step raises — here the unsupported
`ftp://` scheme — `create_image` propagates the error without ever
invoking the cleanup step (the `finally:` only wraps the packer call), so
cleanup is not "invoked exactly once". -/
theorem c1_cleanup_counterexample :
    (create_image optsFtp envG (initState [] [])).1 =
      some (PyError.valueError (dispatchErrMsg (strL "ftp://x/y"))) ∧
    countEv Event.cleanupEnter
      (create_image optsFtp envG (initState [] [])).2.events = 0 := by decide

/-- C1 (amended): whenever the prepare step succeeds, cleanup is invoked
exactly once per run — also when the build-tool step raises, in which case
the error is propagated only after cleanup has run (the trace ends with the
cleanup hook); but when the prepare step itself raises, cleanup is not
invoked at all and the error propagates directly. -/
theorem c1_cleanup_once (opts : Options) (env : Env) (raw fs0 : List PyStr) :
    ((prepare opts env (initState raw fs0)).1 = none →
      countEv Event.cleanupEnter
          (create_image opts env (initState raw fs0)).2.events = 1 ∧
      ∃ l, (create_image opts env (initState raw fs0)).2.events =
        l ++ [Event.hookCleanup]) ∧
    (∀ (e : PyError) (st1 : BuilderState),
      prepare opts env (initState raw fs0) = (some e, st1) →
      create_image opts env (initState raw fs0) = (some e, st1) ∧
      countEv Event.cleanupEnter st1.events = 0) := by
  constructor
  · intro hp
    have hpair : prepare opts env (initState raw fs0) =
        (none, (prepare opts env (initState raw fs0)).2) := by
      cases hP : prepare opts env (initState raw fs0) with
      | mk a b =>
        rw [hP] at hp
        cases a with
        | none => rfl
        | some e => simp at hp
    unfold create_image
    rw [hpair]
    dsimp only
    cases hpk : env.packerResult with
    | none =>
      constructor
      · rw [cleanup_count]
        simp [countEv_append, countEv, prepare_count_zero]
      · exact cleanup_ends_hook _
    | some out =>
      constructor
      · rw [cleanup_count]
        simp [countEv_append, countEv, prepare_count_zero]
      · exact cleanup_ends_hook _
  · intro e st1 hps
    refine ⟨create_image_of_prepare_err _ _ _ _ _ hps, ?_⟩
    have h0 := prepare_count_zero opts env raw fs0
    rw [hps] at h0
    simpa using h0

/-- Witness for C1 (amended): a successful prepare leads to exactly one
cleanup, and a failing prepare (bad scheme) to none. -/
theorem c1_cleanup_once_witness :
    (countEv Event.cleanupEnter
        (create_image optsG envG (initState [] [])).2.events = 1 ∧
      ∃ l, (create_image optsG envG (initState [] [])).2.events =
        l ++ [Event.hookCleanup]) ∧
    (create_image optsFtp envG (initState [] []) =
      (some (PyError.valueError (dispatchErrMsg (strL "ftp://x/y"))),
        (prepare optsFtp envG (initState [] [])).2) ∧
     countEv Event.cleanupEnter (prepare optsFtp envG (initState [] [])).2.events = 0) :=
  ⟨(c1_cleanup_once optsG envG [] []).1 (by decide),
   (c1_cleanup_once optsFtp envG [] []).2
     (PyError.valueError (dispatchErrMsg (strL "ftp://x/y")))
     (prepare optsFtp envG (initState [] [])).2 (by decide)⟩

end Packer
